import Mathlib

/-!
Verification of the query-routing service in `app.py` (`search` endpoint).

The router trims the incoming query, asks a classifier (Gemini) for either a
direct answer or one of the literal route tokens "GOOGLE"/"YOUTUBE", and then
either returns the answer, queries the general video provider (SerpAPI
google_videos engine), or queries the platform provider (YouTube Data API)
with a SerpAPI-youtube fallback.  External services are modelled as an
oracle (`World`) recording whether each credential is configured and what
each upstream call would return.  `search` also returns the list of external
calls it performed.
-/

/-- Python `str.strip`: drop leading and trailing whitespace. -/
def pyStrip (s : String) : String :=
  String.mk (((s.data.dropWhile Char.isWhitespace).reverse.dropWhile
    Char.isWhitespace).reverse)

/-- Python `str.lower` (ASCII, as the route tokens are ASCII). -/
def pyLower (s : String) : String :=
  String.mk (s.data.map Char.toLower)

/-- The external calls the endpoint can make (app.py lines 77, 98, 123, 141). -/
inductive Call where
  | classifier
  | generalProvider
  | platformProvider
  | serpYtProvider
deriving DecidableEq, Repr

/-- A raw SerpAPI item as read by the dict lookups in app.py lines 103-112 and
147-155: every field access is `get`-style, so each field is optional.
`channelName` models `v.get("channel", \x7b\x7d).get("name")` and
`channel_name` models `v.get("channel_name")`. -/
structure RawGeneralItem where
  title : Option String := none
  link : Option String := none
  description : Option String := none
  channelName : Option String := none
  channel_name : Option String := none
  views : Option String := none
deriving DecidableEq, Repr

/-- A raw YouTube Data API item as read by app.py lines 158-165: the three
accesses are mandatory index lookups into the nested snippet/id structure. -/
structure PlatformItem where
  snippetTitle : String
  videoId : String
  channelTitle : String
deriving DecidableEq, Repr

/-- Pydantic `VideoResult` (app.py lines 46-51). -/
structure VideoResult where
  title : String
  link : String
  description : Option String := none
  channel : Option String := none
  views : Option String := none
deriving DecidableEq, Repr

/-- The `source` discriminator of `SearchResponse` (app.py line 54). -/
inductive Source where
  | gemini
  | google_videos
  | youtube
deriving DecidableEq, Repr

/-- Pydantic `SearchResponse` (app.py lines 53-56). -/
structure SearchResponse where
  source : Source
  answer : Option String := none
  results : Option (List VideoResult) := none
deriving DecidableEq, Repr

/-- A FastAPI `HTTPException` (status code and detail message). -/
structure HTTPError where
  status : Nat
  detail : String
deriving DecidableEq, Repr

/-- The oracle for one request: which credentials are configured and what each
upstream call would return.  `geminiResp` is the raw classifier text (before
the `strip()` in `ask_gemini`); the provider responses are the raw item lists
extracted from each upstream payload, or the exception message. -/
structure World where
  serpapiKey : Bool
  youtubeKey : Bool
  geminiResp : Except String String
  googleVideosResp : Except String (List RawGeneralItem)
  ytDataResp : Except String (List PlatformItem)
  serpYtResp : Except String (List RawGeneralItem)

/-- Python `a or b` on two optional strings (`None` and `""` are falsy), as in
`v.get("channel", \x7b\x7d).get("name") or v.get("channel_name")`. -/
def pyOrStr (a b : Option String) : Option String :=
  match a with
  | some s => if s = "" then b else some s
  | none => b

/-- Normalization of one general-provider item (app.py lines 103-112). -/
def normGeneralItem (v : RawGeneralItem) : VideoResult :=
  { title := v.title.getD ""
    link := v.link.getD ""
    description := v.description
    channel := pyOrStr v.channelName v.channel_name
    views := v.views }

/-- Normalization of one SerpAPI-YouTube fallback item (app.py lines 147-155):
same lookups as the general branch but no description field. -/
def normSerpYtItem (i : RawGeneralItem) : VideoResult :=
  { title := i.title.getD ""
    link := i.link.getD ""
    description := none
    channel := pyOrStr i.channelName i.channel_name
    views := i.views }

/-- Normalization of one YouTube Data API item (app.py lines 158-165): the link
is synthesized from the video identifier; description and views stay unset. -/
def normPlatformItem (i : PlatformItem) : VideoResult :=
  { title := i.snippetTitle
    link := "https://youtu.be/" ++ i.videoId
    description := none
    channel := some i.channelTitle
    views := none }

/-- The item list produced by the primary YouTube Data API attempt (app.py
lines 117-128): empty when the key is unconfigured, and any error is
swallowed into the empty list. -/
def ytPrimaryItems (w : World) : List PlatformItem :=
  if w.youtubeKey then
    match w.ytDataResp with
    | Except.ok items => items
    | Except.error _ => []
  else []

/-- The external calls made by the primary YouTube Data API attempt. -/
def ytPrimaryCalls (w : World) : List Call :=
  if w.youtubeKey then [Call.platformProvider] else []

/-- Outcome of the SerpAPI-YouTube fallback (app.py lines 131-155, 167). -/
def ytFallbackOutcome (w : World) : Except HTTPError SearchResponse :=
  if !w.serpapiKey then
    Except.error { status := 500, detail := "No YouTube search API key available" }
  else
    match w.serpYtResp with
    | Except.error e =>
        Except.error { status := 502, detail := "SerpAPI YouTube error: " ++ e }
    | Except.ok vids =>
        Except.ok { source := Source.youtube,
                    results := some ((vids.take 5).map normSerpYtItem) }

/-- External calls made by the SerpAPI-YouTube fallback. -/
def ytFallbackCalls (w : World) : List Call :=
  if !w.serpapiKey then [] else [Call.serpYtProvider]

/-- The `lower == "google"` branch (app.py lines 87-113), with its calls. -/
def googleBranch (w : World) : Except HTTPError SearchResponse × List Call :=
  if !w.serpapiKey then
    (Except.error { status := 500, detail := "SERPAPI_API_KEY not set" }, [])
  else
    match w.googleVideosResp with
    | Except.error e =>
        (Except.error { status := 502, detail := "SerpAPI error: " ++ e },
         [Call.generalProvider])
    | Except.ok vids =>
        (Except.ok { source := Source.google_videos,
                     results := some ((vids.take 5).map normGeneralItem) },
         [Call.generalProvider])

/-- The `lower == "youtube"` branch (app.py lines 116-167), with its calls.
Note the primary-path formatting (lines 158-165) maps over all items with no
truncation, unlike the two SerpAPI paths. -/
def youtubeBranch (w : World) : Except HTTPError SearchResponse × List Call :=
  let items := ytPrimaryItems w
  if items.isEmpty then
    (ytFallbackOutcome w, ytPrimaryCalls w ++ ytFallbackCalls w)
  else
    (Except.ok { source := Source.youtube,
                 results := some (items.map normPlatformItem) },
     ytPrimaryCalls w)

/-- The `/search` endpoint (app.py lines 69-170), as a function of the oracle
and the request query, returning the HTTP outcome and the external calls made
in order. -/
def search (w : World) (reqQuery : String) :
    Except HTTPError SearchResponse × List Call :=
  let query := pyStrip reqQuery
  if query = "" then
    (Except.error { status := 400, detail := "Query must not be empty" }, [])
  else
    match w.geminiResp with
    | Except.error e =>
        (Except.error { status := 502, detail := "Gemini API error: " ++ e },
         [Call.classifier])
    | Except.ok txt =>
        let gemini_out := pyStrip txt
        let lower := pyLower gemini_out
        if gemini_out ≠ "" ∧ lower ≠ "google" ∧ lower ≠ "youtube" then
          (Except.ok { source := Source.gemini, answer := some gemini_out },
           [Call.classifier])
        else if lower = "google" then
          ((googleBranch w).1, Call.classifier :: (googleBranch w).2)
        else if lower = "youtube" then
          ((youtubeBranch w).1, Call.classifier :: (youtubeBranch w).2)
        else
          (Except.error { status := 422,
                          detail := "Unable to determine search method; try rephrasing" },
           [Call.classifier])

/-- A sample platform item used for concrete worlds below. -/
def itemT : PlatformItem :=
  { snippetTitle := "T", videoId := "v1", channelTitle := "C" }

/-- A world where the YouTube Data API answers with six items. -/
def w6 : World :=
  { serpapiKey := false
    youtubeKey := true
    geminiResp := Except.ok "YOUTUBE"
    googleVideosResp := Except.ok []
    ytDataResp := Except.ok [itemT, itemT, itemT, itemT, itemT, itemT]
    serpYtResp := Except.ok [] }

/-- A world where the classifier answers with free text that merely mentions
the route tokens as substrings, and no provider key is configured. -/
def wAns : World :=
  { serpapiKey := false
    youtubeKey := false
    geminiResp := Except.ok " try google or youtube tutorials "
    googleVideosResp := Except.ok []
    ytDataResp := Except.ok []
    serpYtResp := Except.ok [] }

/-- A world where the classifier returns whitespace only. -/
def wBlank : World := { wAns with geminiResp := Except.ok "  " }

/-- A world with no SerpAPI key and a "GOOGLE" classification. -/
def wNoSerp : World := { wAns with geminiResp := Except.ok "GOOGLE" }

/-- A world with no SerpAPI key and a "youtube" classification. -/
def wNoSerpYt : World := { wAns with geminiResp := Except.ok "youtube" }

/-- A world routed to YouTube whose primary provider errors and whose
SerpAPI fallback succeeds. -/
def wYtErr : World :=
  { serpapiKey := true
    youtubeKey := true
    geminiResp := Except.ok " YouTube "
    googleVideosResp := Except.ok []
    ytDataResp := Except.error "quota exceeded"
    serpYtResp := Except.ok [ { title := some "T", link := some "L" } ] }

/-- Seven identical raw general items. -/
def g7 : List RawGeneralItem := List.replicate 7 { title := some "T" }

/-- A world routed to Google whose general provider returns seven items. -/
def wG7 : World :=
  { serpapiKey := true
    youtubeKey := false
    geminiResp := Except.ok "google"
    googleVideosResp := Except.ok g7
    ytDataResp := Except.ok []
    serpYtResp := Except.ok [] }

/-- A world routed to Google whose general provider returns zero items. -/
def wGEmpty : World :=
  { wG7 with geminiResp := Except.ok "Google", googleVideosResp := Except.ok [] }

theorem search_classified_google (w : World) (q txt : String)
    (hq : pyStrip q ≠ "") (hg : w.geminiResp = Except.ok txt)
    (ht : pyLower (pyStrip txt) = "google") :
    search w q = ((googleBranch w).1, Call.classifier :: (googleBranch w).2) := by
  simp [search, hg, ht, hq]

theorem search_classified_youtube (w : World) (q txt : String)
    (hq : pyStrip q ≠ "") (hg : w.geminiResp = Except.ok txt)
    (ht : pyLower (pyStrip txt) = "youtube") :
    search w q = ((youtubeBranch w).1, Call.classifier :: (youtubeBranch w).2) := by
  simp [search, hg, ht, hq]

/-- Claim C1: whenever the trimmed classifier output is non-empty and not
case-insensitively equal to "google" or "youtube", the endpoint returns the
gemini-sourced answer carrying the verbatim trimmed text, and the classifier
is the only external call made (no video provider is called), even if the
text contains the tokens as substrings. -/
theorem C1_direct_answer (w : World) (q txt : String)
    (hq : pyStrip q ≠ "") (hg : w.geminiResp = Except.ok txt)
    (hne : pyStrip txt ≠ "")
    (hng : pyLower (pyStrip txt) ≠ "google")
    (hny : pyLower (pyStrip txt) ≠ "youtube") :
    search w q =
      (Except.ok { source := Source.gemini, answer := some (pyStrip txt),
                   results := none },
       [Call.classifier]) := by
  simp [search, hg, hq, hne, hng, hny]

/-- Claim C3: a query that is empty after trimming yields HTTP 400
(InvalidInput) and no external call at all. -/
theorem C3_empty_query (w : World) (q : String) (hq : pyStrip q = "") :
    search w q =
      (Except.error { status := 400, detail := "Query must not be empty" }, []) := by
  simp [search, hq]

/-- Claim C10: a successful classifier call whose trimmed output is empty
reaches the defensive catch-all: HTTP 422 with the "Unable to determine
search method" detail, with the classifier as the only external call. -/
theorem C10_routing_exhausted (w : World) (q txt : String)
    (hq : pyStrip q ≠ "") (hg : w.geminiResp = Except.ok txt)
    (he : pyStrip txt = "") :
    search w q =
      (Except.error { status := 422,
                      detail := "Unable to determine search method; try rephrasing" },
       [Call.classifier]) := by
  simp [search, hg, hq, he, pyLower]

theorem ytPrimaryItems_nil_of_key_false (w : World) (h : w.youtubeKey = false) :
    ytPrimaryItems w = [] := by
  simp [ytPrimaryItems, h]

theorem ytPrimaryItems_nil_of_error (w : World) (e : String)
    (h : w.ytDataResp = Except.error e) : ytPrimaryItems w = [] := by
  cases hk : w.youtubeKey <;> simp [ytPrimaryItems, hk, h]

theorem ytPrimaryItems_nil_of_ok_nil (w : World)
    (h : w.ytDataResp = Except.ok []) : ytPrimaryItems w = [] := by
  cases hk : w.youtubeKey <;> simp [ytPrimaryItems, hk, h]

theorem youtubeBranch_fst_fallback (w : World) (h : ytPrimaryItems w = []) :
    (youtubeBranch w).1 = ytFallbackOutcome w := by
  simp [youtubeBranch, h]

theorem youtubeBranch_ok_source (w : World) (r : SearchResponse)
    (h : (youtubeBranch w).1 = Except.ok r) : r.source = Source.youtube := by
  by_cases hi : (ytPrimaryItems w).isEmpty
  · rw [youtubeBranch_fst_fallback w (List.isEmpty_iff.mp hi)] at h
    unfold ytFallbackOutcome at h
    cases hsk : w.serpapiKey <;> rw [hsk] at h <;> simp at h
    rcases hyv : w.serpYtResp with e | vids <;> rw [hyv] at h <;> simp at h
    rw [← h]
  · simp [youtubeBranch, hi] at h
    rw [← h]

theorem youtubeBranch_platform_call_iff (w : World) :
    Call.platformProvider ∈ (youtubeBranch w).2 ↔ w.youtubeKey = true := by
  cases hk : w.youtubeKey
  · have h0 := ytPrimaryItems_nil_of_key_false w hk
    cases hsk : w.serpapiKey <;>
      simp [youtubeBranch, h0, ytPrimaryCalls, ytFallbackCalls, hk, hsk]
  · by_cases hi : (ytPrimaryItems w).isEmpty <;>
      cases hsk : w.serpapiKey <;>
      simp [youtubeBranch, hi, ytPrimaryCalls, ytFallbackCalls, hk, hsk]

/-- Claim C2: under a "youtube" classification, the platform-native provider
is attempted exactly when its credential is configured; a primary error or an
empty primary item list (or an unconfigured key) is swallowed and the outcome
is exactly that of the SerpAPI fallback; and every successful outcome carries
the "youtube" source tag. -/
theorem C2_platform_fallback (w : World) (q txt : String)
    (hq : pyStrip q ≠ "") (hg : w.geminiResp = Except.ok txt)
    (ht : pyLower (pyStrip txt) = "youtube") :
    (Call.platformProvider ∈ (search w q).2 ↔ w.youtubeKey = true) ∧
    (∀ r, (search w q).1 = Except.ok r → r.source = Source.youtube) ∧
    (w.youtubeKey = false → (search w q).1 = ytFallbackOutcome w) ∧
    (∀ e, w.ytDataResp = Except.error e → (search w q).1 = ytFallbackOutcome w) ∧
    (w.ytDataResp = Except.ok [] → (search w q).1 = ytFallbackOutcome w) := by
  rw [search_classified_youtube w q txt hq hg ht]
  refine ⟨?_, ?_, ?_, ?_, ?_⟩
  · simpa using youtubeBranch_platform_call_iff w
  · intro r hr
    exact youtubeBranch_ok_source w r hr
  · intro hk
    exact youtubeBranch_fst_fallback w (ytPrimaryItems_nil_of_key_false w hk)
  · intro e he
    exact youtubeBranch_fst_fallback w (ytPrimaryItems_nil_of_error w e he)
  · intro hd
    exact youtubeBranch_fst_fallback w (ytPrimaryItems_nil_of_ok_nil w hd)

/-- Witness for C2: the primary provider errors, yet the platform provider
was attempted and the outcome equals the fallback outcome. -/
theorem C2_platform_fallback_witness :
    Call.platformProvider ∈ (search wYtErr "cats").2 ∧
    (search wYtErr "cats").1 = ytFallbackOutcome wYtErr :=
  ⟨((C2_platform_fallback wYtErr "cats" " YouTube " (by decide) rfl
      (by decide)).1).mpr rfl,
   (C2_platform_fallback wYtErr "cats" " YouTube " (by decide) rfl
      (by decide)).2.2.2.1 "quota exceeded" rfl⟩

/-- Claim C4 counterexample: on the platform-primary branch the code maps all
items with no truncation (app.py lines 158-165 have no `[:5]`), so a raw list
of six items yields six records, not five, refuting the claim as stated. -/
theorem C4_truncation_counterexample :
    (search w6 "q").1 =
      Except.ok { source := Source.youtube,
                  results := some (List.map normPlatformItem
                    [itemT, itemT, itemT, itemT, itemT, itemT]) } ∧
    (List.map normPlatformItem [itemT, itemT, itemT, itemT, itemT, itemT]).length
      = 6 :=
  ⟨rfl, rfl⟩

/-- Claim C4 (amended): on the general and platform-fallback branches a raw
list is truncated to the first 5 items in provider order and shorter lists
(the empty list included) are unpadded; on the platform-primary branch all
returned items are normalized without truncation (the request itself caps the
provider at 5 via maxResults). -/
theorem C4_truncation_amended (w : World) (q txt : String)
    (hq : pyStrip q ≠ "") (hg : w.geminiResp = Except.ok txt) :
    (∀ vids, pyLower (pyStrip txt) = "google" → w.serpapiKey = true →
      w.googleVideosResp = Except.ok vids →
      (search w q).1 =
        Except.ok
          { source := Source.google_videos,
            results := some ((vids.take 5).map normGeneralItem) } ∧
      ((vids.take 5).map normGeneralItem).length = min vids.length 5) ∧
    (∀ vids, pyLower (pyStrip txt) = "youtube" → ytPrimaryItems w = [] →
      w.serpapiKey = true → w.serpYtResp = Except.ok vids →
      (search w q).1 =
        Except.ok
          { source := Source.youtube,
            results := some ((vids.take 5).map normSerpYtItem) } ∧
      ((vids.take 5).map normSerpYtItem).length = min vids.length 5) ∧
    (∀ items, pyLower (pyStrip txt) = "youtube" → w.youtubeKey = true →
      w.ytDataResp = Except.ok items → items ≠ [] →
      (search w q).1 =
        Except.ok
          { source := Source.youtube,
            results := some (items.map normPlatformItem) } ∧
      (items.map normPlatformItem).length = items.length) := by
  refine ⟨?_, ?_, ?_⟩
  · intro vids ht hk hv
    rw [search_classified_google w q txt hq hg ht]
    constructor
    · simp [googleBranch, hk, hv]
    · simp [List.length_take]
      omega
  · intro vids ht hi hk hv
    rw [search_classified_youtube w q txt hq hg ht]
    constructor
    · rw [youtubeBranch_fst_fallback w hi]
      simp [ytFallbackOutcome, hk, hv]
    · simp [List.length_take]
      omega
  · intro items ht hk hd hne
    rw [search_classified_youtube w q txt hq hg ht]
    constructor
    · simp [youtubeBranch, ytPrimaryItems, hk, hd, hne]
    · simp

/-- Witness for the amended C4: a seven-item general-provider response is cut
to five records. -/
theorem C4_truncation_amended_witness :
    (search wG7 "q").1 =
      Except.ok { source := Source.google_videos,
                  results := some ((g7.take 5).map normGeneralItem) } ∧
    ((g7.take 5).map normGeneralItem).length = min g7.length 5 :=
  (C4_truncation_amended wG7 "q" "google" (by decide) rfl).1 g7 (by decide) rfl rfl

/-- Claim C5: when the SerpAPI credential is required by the reached branch
and unconfigured (GOOGLE branch, or YOUTUBE branch whose primary attempt
produced no items), the endpoint fails with HTTP 500 (ConfigError) instead of
returning a silent empty list. -/
theorem C5_config_error (w : World) (q txt : String)
    (hq : pyStrip q ≠ "") (hg : w.geminiResp = Except.ok txt)
    (hnk : w.serpapiKey = false) :
    (pyLower (pyStrip txt) = "google" →
      (search w q).1 =
        Except.error { status := 500, detail := "SERPAPI_API_KEY not set" }) ∧
    (pyLower (pyStrip txt) = "youtube" → ytPrimaryItems w = [] →
      (search w q).1 =
        Except.error
          { status := 500, detail := "No YouTube search API key available" }) := by
  constructor
  · intro ht
    rw [search_classified_google w q txt hq hg ht]
    simp [googleBranch, hnk]
  · intro ht hi
    rw [search_classified_youtube w q txt hq hg ht]
    rw [youtubeBranch_fst_fallback w hi]
    simp [ytFallbackOutcome, hnk]

/-- Witness for C5 on both branches with no SerpAPI key configured. -/
theorem C5_config_error_witness :
    (search wNoSerp "dogs").1 =
      Except.error { status := 500, detail := "SERPAPI_API_KEY not set" } ∧
    (search wNoSerpYt "dogs").1 =
      Except.error
        { status := 500, detail := "No YouTube search API key available" } :=
  ⟨(C5_config_error wNoSerp "dogs" "GOOGLE" (by decide) rfl rfl).1 (by decide),
   (C5_config_error wNoSerpYt "dogs" "youtube" (by decide) rfl rfl).2
     (by decide) rfl⟩

/-- Claim C6: normalizing the platform-native item with snippet.title "T",
id.videoId "abc123" and snippet.channelTitle "C" yields exactly the record
with the synthesized link and unset description and views. -/
theorem C6_platform_item_normalization :
    normPlatformItem { snippetTitle := "T", videoId := "abc123", channelTitle := "C" }
      = { title := "T", link := "https://youtu.be/abc123", channel := some "C",
          description := none, views := none } := rfl

/-- Claim C7: on the GOOGLE branch with a configured credential, a provider
response with zero items is not an error: the endpoint succeeds with source
google_videos and an empty record list. -/
theorem C7_zero_results_general (w : World) (q txt : String)
    (hq : pyStrip q ≠ "") (hg : w.geminiResp = Except.ok txt)
    (ht : pyLower (pyStrip txt) = "google")
    (hk : w.serpapiKey = true) (hv : w.googleVideosResp = Except.ok []) :
    (search w q).1 =
      Except.ok
        { source := Source.google_videos, answer := none, results := some [] } := by
  rw [search_classified_google w q txt hq hg ht]
  simp [googleBranch, hk, hv]

/-- Witness for C7 at a zero-item general-provider response. -/
theorem C7_zero_results_general_witness :
    (search wGEmpty "rain").1 =
      Except.ok
        { source := Source.google_videos, answer := none, results := some [] } :=
  C7_zero_results_general wGEmpty "rain" "Google" (by decide) rfl (by decide) rfl rfl

/-- Claim C8: channel extraction tries the nested channel-object name first
and falls back to the flat channel-name field exactly when the nested one is
absent or empty, on both the general and the platform-fallback normalizers. -/
theorem C8_channel_extraction (v : RawGeneralItem) (s : String) :
    (v.channelName = some s → s ≠ "" →
      (normGeneralItem v).channel = some s ∧ (normSerpYtItem v).channel = some s) ∧
    ((v.channelName = none ∨ v.channelName = some "") →
      (normGeneralItem v).channel = v.channel_name ∧
      (normSerpYtItem v).channel = v.channel_name) := by
  constructor
  · intro h hs
    simp [normGeneralItem, normSerpYtItem, pyOrStr, h, hs]
  · rintro (h | h) <;> simp [normGeneralItem, normSerpYtItem, pyOrStr, h]

/-- Witness for C8: an empty nested name falls back to the flat field, and a
non-empty nested name wins over it. -/
theorem C8_channel_extraction_witness :
    (normGeneralItem { channelName := some "", channel_name := some "F" }).channel
      = some "F" ∧
    (normGeneralItem { channelName := some "N", channel_name := some "F" }).channel
      = some "N" :=
  ⟨((C8_channel_extraction { channelName := some "", channel_name := some "F" }
      "x").2 (Or.inr rfl)).1,
   ((C8_channel_extraction { channelName := some "N", channel_name := some "F" }
      "N").1 rfl (by decide)).1⟩

/-- Claim C9: the endpoint logic is a pure function of the query and the
upstream responses: equal queries and componentwise-equal oracles produce
identical outcomes and call lists. -/
theorem C9_deterministic (w w9 : World) (q q9 : String)
    (hq : q = q9)
    (h1 : w.serpapiKey = w9.serpapiKey)
    (h2 : w.youtubeKey = w9.youtubeKey)
    (h3 : w.geminiResp = w9.geminiResp)
    (h4 : w.googleVideosResp = w9.googleVideosResp)
    (h5 : w.ytDataResp = w9.ytDataResp)
    (h6 : w.serpYtResp = w9.serpYtResp) :
    search w q = search w9 q9 := by
  obtain ⟨a1, a2, a3, a4, a5, a6⟩ := w
  obtain ⟨b1, b2, b3, b4, b5, b6⟩ := w9
  subst hq
  simp only at h1 h2 h3 h4 h5 h6
  subst h1 h2 h3 h4 h5 h6
  rfl

/-- Witness for C9 at a concrete world and query. -/
theorem C9_deterministic_witness :
    search wYtErr "same" = search wYtErr "same" :=
  C9_deterministic wYtErr wYtErr "same" "same" rfl rfl rfl rfl rfl rfl rfl

/-- Witness for C1 at a classifier output that mentions both tokens as
substrings, with no provider key configured. -/
theorem C1_direct_answer_witness :
    search wAns "how" =
      (Except.ok { source := Source.gemini,
                   answer := some "try google or youtube tutorials",
                   results := none },
       [Call.classifier]) :=
  C1_direct_answer wAns "how" " try google or youtube tutorials " (by decide) rfl
    (by decide) (by decide) (by decide)

/-- Witness for C3 at a whitespace-only query. -/
theorem C3_empty_query_witness :
    search wAns "   " =
      (Except.error { status := 400, detail := "Query must not be empty" }, []) :=
  C3_empty_query wAns "   " (by decide)

/-- Witness for C10 at a whitespace-only classifier output. -/
theorem C10_routing_exhausted_witness :
    search wBlank "hi" =
      (Except.error
        { status := 422,
          detail := "Unable to determine search method; try rephrasing" },
       [Call.classifier]) :=
  C10_routing_exhausted wBlank "hi" "  " (by decide) rfl (by decide)
